import Mathlib

set_option maxRecDepth 100000

/-!
Verification of the `verified-chain-bk` backend (src/backend.js,
src/utils/hashMessaje.js, src/utils/web3.js) against its design
specification.  The development shallowly embeds the request pipeline of
`backend.js` (the `/verified-chain` handler and the functions `proof`,
`relaySetProof`, `verifyProof`) together with the hashing helper
`hashMessage`, and proves or refutes the specification's claims about it.

Machine integers are modelled as `Nat` with explicit reduction modulo
`2 ^ 32` where the JavaScript code performs 32-bit arithmetic; byte
sequences are `List Nat` with entries below 256.
-/

namespace VerifiedChainBk

/-! ## SHA-256 (FIPS 180-4)

The backend derives its commitment with the `crypto-js` SHA-256
implementation.  We first embed genuine SHA-256, which is both the
reference point the specification describes ("the digest of exactly the
artifact's raw bytes") and the compression function that `crypto-js`
executes internally. -/

/-- Reduce to a 32-bit word. -/
def w32 (n : Nat) : Nat := n % 4294967296

/-- Right rotation of a 32-bit word by `n` bits. -/
def rotr (n x : Nat) : Nat := w32 ((x >>> n) ||| (x <<< (32 - n)))

/-- Bitwise complement of a 32-bit word. -/
def compl32 (x : Nat) : Nat := x ^^^ 4294967295

/-- SHA-256 `Ch` function. -/
def ch (x y z : Nat) : Nat := (x &&& y) ^^^ (compl32 x &&& z)

/-- SHA-256 `Maj` function. -/
def maj (x y z : Nat) : Nat := (x &&& y) ^^^ (x &&& z) ^^^ (y &&& z)

/-- SHA-256 big sigma 0. -/
def bsig0 (x : Nat) : Nat := rotr 2 x ^^^ rotr 13 x ^^^ rotr 22 x

/-- SHA-256 big sigma 1. -/
def bsig1 (x : Nat) : Nat := rotr 6 x ^^^ rotr 11 x ^^^ rotr 25 x

/-- SHA-256 small sigma 0. -/
def ssig0 (x : Nat) : Nat := rotr 7 x ^^^ rotr 18 x ^^^ (x >>> 3)

/-- SHA-256 small sigma 1. -/
def ssig1 (x : Nat) : Nat := rotr 17 x ^^^ rotr 19 x ^^^ (x >>> 10)

/-- The 64 SHA-256 round constants of FIPS 180-4 (0x428a2f98, 0x71374491,
..., 0xc67178f2), written in decimal. -/
def sha256K : List Nat :=
  [1116352408, 1899447441, 3049323471, 3921009573,
   961987163, 1508970993, 2453635748, 2870763221,
   3624381080, 310598401, 607225278, 1426881987,
   1925078388, 2162078206, 2614888103, 3248222580,
   3835390401, 4022224774, 264347078, 604807628,
   770255983, 1249150122, 1555081692, 1996064986,
   2554220882, 2821834349, 2952996808, 3210313671,
   3336571891, 3584528711, 113926993, 338241895,
   666307205, 773529912, 1294757372, 1396182291,
   1695183700, 1986661051, 2177026350, 2456956037,
   2730485921, 2820302411, 3259730800, 3345764771,
   3516065817, 3600352804, 4094571909, 275423344,
   430227734, 506948616, 659060556, 883997877,
   958139571, 1322822218, 1537002063, 1747873779,
   1955562222, 2024104815, 2227730452, 2361852424,
   2428436474, 2756734187, 3204031479, 3329325298]

/-- The eight 32-bit working registers of SHA-256. -/
structure H8 where
  a : Nat
  b : Nat
  c : Nat
  d : Nat
  e : Nat
  f : Nat
  g : Nat
  h : Nat
deriving DecidableEq

/-- SHA-256 initial hash value of FIPS 180-4 (0x6a09e667 ... 0x5be0cd19),
written in decimal. -/
def sha256IV : H8 :=
  ⟨1779033703, 3144134277, 1013904242, 2773480762,
   1359893119, 2600822924, 528734635, 1541459225⟩

/-- One extension step of the message schedule.  The accumulator keeps the
schedule words newest-first, so `w[t-2]` sits at position 1, `w[t-7]` at 6,
`w[t-15]` at 14 and `w[t-16]` at 15. -/
def scheduleStep (ws : List Nat) (_i : Nat) : List Nat :=
  w32 (ssig1 (ws.getD 1 0) + ws.getD 6 0 + ssig0 (ws.getD 14 0) + ws.getD 15 0) :: ws

/-- Expand a 16-word block into the 64-word message schedule. -/
def messageSchedule (block : List Nat) : List Nat :=
  ((List.range 48).foldl scheduleStep block.reverse).reverse

/-- One SHA-256 compression round with round constant `k` and schedule
word `w`. -/
def roundStep (st : H8) (k w : Nat) : H8 :=
  let t1 := w32 (st.h + bsig1 st.e + ch st.e st.f st.g + k + w)
  let t2 := w32 (bsig0 st.a + maj st.a st.b st.c)
  ⟨w32 (t1 + t2), st.a, st.b, st.c, w32 (st.d + t1), st.e, st.f, st.g⟩

/-- Compress one 16-word block into the running state. -/
def compressBlock (st0 : H8) (block : List Nat) : H8 :=
  let ws := messageSchedule block
  let st := (sha256K.zip ws).foldl (fun s p => roundStep s p.1 p.2) st0
  ⟨w32 (st0.a + st.a), w32 (st0.b + st.b), w32 (st0.c + st.c), w32 (st0.d + st.d),
   w32 (st0.e + st.e), w32 (st0.f + st.f), w32 (st0.g + st.g), w32 (st0.h + st.h)⟩

/-- Big-endian byte rendering of `v` on `n` bytes. -/
def beBytes (n v : Nat) : List Nat :=
  (List.range n).map (fun i => (v >>> (8 * (n - 1 - i))) % 256)

/-- SHA-256 padding: append `0x80`, zero bytes, and the 64-bit big-endian
bit length, reaching a multiple of 64 bytes. -/
def padBytes (bytes : List Nat) : List Nat :=
  let l := bytes.length
  let k := (64 - ((l + 9) % 64)) % 64
  bytes ++ [128] ++ List.replicate k 0 ++ beBytes 8 (l * 8)

/-- Group bytes into big-endian 32-bit words (the input length is a
multiple of 4 whenever this is applied to padded data). -/
def bytesToWords : List Nat → List Nat
  | b0 :: b1 :: b2 :: b3 :: rest =>
      (b0 * 16777216 + b1 * 65536 + b2 * 256 + b3) :: bytesToWords rest
  | _ => []

/-- Split a word list into blocks of 16 words, with fuel for termination. -/
def chunksAux : Nat → List Nat → List (List Nat)
  | 0, _ => []
  | _, [] => []
  | fuel + 1, ws => ws.take 16 :: chunksAux fuel (ws.drop 16)

/-- Split a word list into blocks of 16 words. -/
def chunks16 (ws : List Nat) : List (List Nat) := chunksAux ws.length ws

/-- The eight state words of a digest, in order. -/
def h8List (st : H8) : List Nat := [st.a, st.b, st.c, st.d, st.e, st.f, st.g, st.h]

/-- SHA-256 of a byte sequence, as the final state. -/
def sha256Words (bytes : List Nat) : H8 :=
  (chunks16 (bytesToWords (padBytes bytes))).foldl compressBlock sha256IV

/-- Lowercase hex digit for a nibble. -/
def hexChar (n : Nat) : Char :=
  List.getD "0123456789abcdef".toList n '0'

/-- Render a 32-bit word as exactly eight lowercase hex characters. -/
def wordHex (w : Nat) : String :=
  String.mk ((List.range 8).map (fun i => hexChar ((w >>> (28 - 4 * i)) % 16)))

/-- Render a word list as a hex string. -/
def wordsHex (ws : List Nat) : String := String.join (ws.map wordHex)

/-- SHA-256 of a byte sequence as a 64-character lowercase hex string. -/
def sha256Hex (bytes : List Nat) : String := wordsHex (h8List (sha256Words bytes))

/-- ASCII byte sequence of a string consisting of ASCII characters. -/
def asciiBytes (s : String) : List Nat := s.data.map Char.toNat

/-- Sanity check: SHA-256 of the empty byte sequence (FIPS 180-4 test
vector). -/
theorem sha256Hex_empty :
    sha256Hex [] = "e3b0c44298fc1c149afbf4c8996fb92427ae41e4649b934ca495991b7852b855" := by
  decide

/-- Sanity check: SHA-256 of the ASCII bytes of "abc" (FIPS 180-4 test
vector). -/
theorem sha256Hex_abc :
    sha256Hex (asciiBytes "abc") =
      "ba7816bf8f01cfea414140de5dae2223b00361a396177a9cb410ff61f20015ad" := by
  decide

/-! ## UTF-8 encoding and decoding

`src/utils/hashMessaje.js` converts its string argument to bytes with
`utf8ToBytes` from `ethereum-cryptography/utils`, which is
`new TextEncoder().encode(str)` — standard UTF-8 encoding.
`src/backend.js` reads the proof artifact with
`fs.readFileSync(path).toString()`, which decodes the raw bytes as UTF-8,
substituting U+FFFD for invalid sequences (Node's lossy UTF-8 decode). -/

/-- UTF-8 encoding of one scalar value. -/
def encodeChar (c : Char) : List Nat :=
  let n := c.toNat
  if n < 128 then [n]
  else if n < 2048 then [192 + n / 64, 128 + n % 64]
  else if n < 65536 then [224 + n / 4096, 128 + (n / 64) % 64, 128 + n % 64]
  else [240 + n / 262144, 128 + (n / 4096) % 64, 128 + (n / 64) % 64, 128 + n % 64]

/-- UTF-8 encoding of a string (the `utf8ToBytes` collaborator). -/
def utf8Encode (s : String) : List Nat := (s.data.map encodeChar).flatten

/-- Whether a byte is a UTF-8 continuation byte. -/
def contByte (b : Nat) : Bool := 128 ≤ b && b < 192

/-- The U+FFFD replacement character. -/
def repl : Char := Char.ofNat 65533

/-- Lossy UTF-8 decoding, fuelled for termination; each step consumes at
least one byte, and the fuel is initialised to the input length.  Overlong
and surrogate-range sequences are rejected as Node's decoder rejects them
(first-byte/second-byte range restrictions per WHATWG). -/
def utf8DecodeAux : Nat → List Nat → List Char
  | 0, _ => []
  | _, [] => []
  | fuel + 1, b :: rest =>
    if b < 128 then Char.ofNat b :: utf8DecodeAux fuel rest
    else if 194 ≤ b && b ≤ 223 then
      match rest with
      | b2 :: rest2 =>
        if contByte b2 then
          Char.ofNat ((b - 192) * 64 + (b2 - 128)) :: utf8DecodeAux fuel rest2
        else repl :: utf8DecodeAux fuel rest
      | [] => [repl]
    else if 224 ≤ b && b ≤ 239 then
      match rest with
      | b2 :: b3 :: rest3 =>
        if contByte b2 && contByte b3
            && (b != 224 || 160 ≤ b2) && (b != 237 || b2 ≤ 159) then
          Char.ofNat ((b - 224) * 4096 + (b2 - 128) * 64 + (b3 - 128))
            :: utf8DecodeAux fuel rest3
        else repl :: utf8DecodeAux fuel rest
      | _ => repl :: utf8DecodeAux fuel rest
    else if 240 ≤ b && b ≤ 244 then
      match rest with
      | b2 :: b3 :: b4 :: rest4 =>
        if contByte b2 && contByte b3 && contByte b4
            && (b != 240 || 144 ≤ b2) && (b != 244 || b2 ≤ 143) then
          Char.ofNat ((b - 240) * 262144 + (b2 - 128) * 4096 + (b3 - 128) * 64 + (b4 - 128))
            :: utf8DecodeAux fuel rest4
        else repl :: utf8DecodeAux fuel rest
      | _ => repl :: utf8DecodeAux fuel rest
    else repl :: utf8DecodeAux fuel rest

/-- Lossy UTF-8 decode of a byte sequence to a string: the semantics of
`Buffer.prototype.toString()` applied to the artifact file's bytes. -/
def bufferToString (bytes : List Nat) : String :=
  String.mk (utf8DecodeAux bytes.length bytes)

/-! ## The crypto-js hasher as used by `hashMessage`

`src/utils/hashMessaje.js` is

```
const SHA256 = require('crypto-js/sha256');
export function hashMessage(message) {
    const bytes = utf8ToBytes(message);
    const hash = SHA256(bytes);
    return `0x` + hash
}
```

`SHA256` here is crypto-js's helper `(message) => new SHA256Algo.init().finalize(message)`.
crypto-js accepts only strings or its own `WordArray` objects; `bytes` is
a `Uint8Array`.  Tracing crypto-js `core.js` on such an argument:

* `_append(data)`: `typeof data` is `'object'`, so `Utf8.parse` is skipped
  and `this._data.concat(data)` is called with the `Uint8Array`.
* `WordArray.concat(wordArray)` reads `wordArray.words` and
  `wordArray.sigBytes`, both `undefined` on a `Uint8Array`.  Its copy loop
  bound `i < undefined` is false, so nothing is copied, and
  `this.sigBytes += undefined` sets `sigBytes` to `NaN`.  Likewise
  `_nDataBytes += data.sigBytes` becomes `NaN`.
* `_doFinalize`: with `nBitsLeft = NaN` and `nBitsTotal = NaN`,
  `dataWords[NaN >>> 5]` is `dataWords[0]` (`ToUint32(NaN) = 0`), and
  `0x80 << (24 - NaN % 32)` is `0x80 << 0 = 0x80` (a `NaN` shift count
  converts to 0).  So `dataWords[0] = 0x80 | undefined = 0x00000080`.
  The two length words `dataWords[14]` and `dataWords[15]` are set to
  `NaN`, and `data.sigBytes = dataWords.length * 4 = 64`.
* `_process` then compresses exactly one block whose words are read as
  `M[offset + i] | 0`, turning holes and `NaN` into 0: the block is
  `[0x00000080, 0, 0, 0, 0, 0, 0, 0, 0, 0, 0, 0, 0, 0, 0, 0]`.

Hence for EVERY `Uint8Array` argument — regardless of its contents and
length — crypto-js compresses the same single garbage block, and the
returned digest is one fixed 256-bit value.  The digest rendering
(`hash.toString()` inside the template literal) is `Hex.stringify` over
the 8 state words, i.e. 64 lowercase hex characters. -/

/-- The one 16-word block crypto-js compresses when `SHA256` receives a
`Uint8Array`: word 0 is `0x00000080` and the rest are zero (see the trace
above). -/
def cryptoJsForeignBlock : List Nat := 128 :: List.replicate 15 0

/-- Hex digest produced by crypto-js `SHA256` on a `Uint8Array` argument.
Per the `core.js` trace above the result does not depend on the bytes at
all, which is why the byte argument is unused. -/
def cryptoJsSHA256HexOfBytes (_bytes : List Nat) : String :=
  wordsHex (h8List (compressBlock sha256IV cryptoJsForeignBlock))

/-- The `hashMessage` function of `src/utils/hashMessaje.js`: UTF-8-encode
the message, feed the `Uint8Array` to crypto-js `SHA256`, and prefix the
hex rendering with `0x`. -/
def hashMessage (message : String) : String :=
  "0x" ++ cryptoJsSHA256HexOfBytes (utf8Encode message)

/-! ## The request pipeline of `src/backend.js`

The `/verified-chain` handler runs, for one request:

```
var message = helloSetter + " setted hello to " + " " + hello
await proof(hello, helloSetter, signature);
await verifyProof();
res.send({ "message": message })        // always status 200
```

* `proof` awaits the external `ezkl` prover (`exec` rejects when the
  process exits non-zero), reads `./ezkl/1l_relu.pf`, hashes it with
  `hashMessage`, and awaits `relaySetProof(message)`.  It has no
  `try`/`catch`, so a prover failure propagates out of the handler and no
  response is sent.
* `relaySetProof` wraps its whole body in `try { ... } catch { console.log }`:
  it queries gas price and gas estimate, builds the literal object
  `{ to, data, gas, gasPrice }`, and awaits `sendTransaction`; every error
  is swallowed.
* `verifyProof` also swallows every error; it reads the contract counter,
  re-reads and re-hashes the artifact file, and invokes the read-only
  `verify_proof(weiCounter - 1, message)` call, only logging its result.

The environment (prover outcome, node behaviour, contract state) is a
`World`; observable collaborator interactions are collected in the run
result.  The contract is the append-only store the specification assumes:
a successful `create_proof` appends the commitment and increments the
counter. -/

/-- The contract address hard-coded in `src/backend.js`. -/
def CONTRACT_ADDRESS : String := "0x7897e2050b129DC4934fe815807FC0Fe1C291194"

/-- A JavaScript object field value (string or number), for modelling the
literal transaction object the code builds. -/
inductive JsVal where
  | str (s : String)
  | num (n : Nat)
deriving DecidableEq

/-- A JavaScript object as an ordered field list. -/
abbrev JsObj := List (String × JsVal)

/-- Symbolic ABI encoding of `contract.methods.create_proof(x).encodeABI()`;
an injective stand-in for the opaque web3 encoder. -/
def createProofData (commitment : String) : String :=
  "create_proof(" ++ commitment ++ ")"

/-- The transaction object literally built in `relaySetProof`:
`{ to: contract.options.address, data: dataTx, gas: gasCost1, gasPrice }`.
It has exactly these four fields. -/
def txObjFor (commitment : String) (gas gasPrice : Nat) : JsObj :=
  [("to", JsVal.str CONTRACT_ADDRESS),
   ("data", JsVal.str (createProofData commitment)),
   ("gas", JsVal.num gas),
   ("gasPrice", JsVal.num gasPrice)]

/-- Outcome of `exec` on the ezkl prover command: the promisified `exec`
resolves with the output streams when the process exits 0 (after which the
proof artifact exists at `./ezkl/1l_relu.pf`), and rejects when the exit
code is non-zero, carrying the captured stderr. -/
inductive ExecOutcome where
  | success (stdout stderr : String) (artifact : List Nat)
  | failure (exitCode : Nat) (stderr : String)
deriving DecidableEq

/-- On-chain state of the (assumed append-only, zero-indexed) contract:
`counter` is the number of stored commitments. -/
structure ChainState where
  counter : Nat
  proofs : List String
deriving DecidableEq

/-- Environment of one request: prover outcome, node answers, and which
collaborator calls succeed. -/
structure World where
  execOutcome : ExecOutcome
  gasPrice : Nat
  gasEstimate : Nat
  estimateOk : Bool
  submitOk : Bool
  counterReadOk : Bool
  verifyCallOk : Bool
  verifyPayload : Bool
deriving DecidableEq

/-- Stage outcome in the specification's orchestrator state machine
(`Done`, or `Failed(stage, error)`). -/
inductive Outcome where
  | done
  | failed (stage : String) (err : String)
deriving DecidableEq

/-- The state the specification's state machine §4.4 assigns to a run of
this pipeline: `Failed` at the first stage whose collaborator call fails,
`done` when every stage's call returns successfully. -/
def outcomeOf (w : World) : Outcome :=
  match w.execOutcome with
  | .failure _ stderr => .failed "Proving" stderr
  | .success _ _ _ =>
    if !w.estimateOk then .failed "Submitting" "EstimationError"
    else if !w.submitOk then .failed "Submitting" "SubmissionError"
    else if !w.counterReadOk then .failed "Verifying" "CallError"
    else if !w.verifyCallOk then .failed "Verifying" "CallError"
    else .done

/-- Observable effects of one `relaySetProof(commitment)` call. -/
structure RelayResult where
  chain : ChainState
  builtTxs : List JsObj
  submitCalls : Nat
  nodeCalls : List String
  errorCaught : Option String
deriving DecidableEq

/-- `relaySetProof` (src/backend.js lines 50–86).  Gas price and gas
estimate are queried first (`Promise.all`); only then is the transaction
object built and `sendTransaction` awaited.  The surrounding
`try`/`catch` logs any error, so the function never throws; a failed
submission leaves the chain unchanged.  No nonce is fetched
(`getTransactionCount` is never called) and the built object carries no
`nonce` field. -/
def relaySetProofRun (w : World) (chain : ChainState) (commitment : String) : RelayResult :=
  if w.estimateOk then
    let tx := txObjFor commitment w.gasEstimate w.gasPrice
    if w.submitOk then
      ⟨⟨chain.counter + 1, chain.proofs ++ [commitment]⟩, [tx], 1,
        ["getGasPrice", "estimateGas", "sendTransaction"], none⟩
    else
      ⟨chain, [tx], 1, ["getGasPrice", "estimateGas", "sendTransaction"],
        some "SubmissionError"⟩
  else
    ⟨chain, [], 0, ["getGasPrice", "estimateGas"], some "EstimationError"⟩

/-- Observable effects of one `verifyProof()` call. -/
structure VerifyResult where
  counterRead : Option Nat
  verifyCalls : List (Int × String)
  verifyReturned : Option Bool
deriving DecidableEq

/-- `verifyProof` (src/backend.js lines 106–128).  Inside a `try`/`catch`
that swallows all errors: read the counter, re-read and re-hash
`./ezkl/1l_relu.pf`, and invoke the read-only
`verify_proof(weiCounter - 1, message)` call.  Its boolean result is only
logged.  In the single-request run the file still holds the artifact the
prover wrote. -/
def verifyProofRun (w : World) (chain : ChainState) (artifact : List Nat) : VerifyResult :=
  if w.counterReadOk then
    let weiCounter := chain.counter
    let message := hashMessage (bufferToString artifact)
    if w.verifyCallOk then
      ⟨some weiCounter, [((weiCounter : Int) - 1, message)], some w.verifyPayload⟩
    else
      ⟨some weiCounter, [((weiCounter : Int) - 1, message)], none⟩
  else ⟨none, [], none⟩

/-- One inbound `/verified-chain` request's query parameters. -/
structure ProofRequest where
  hello : String
  helloSetter : String
  signature : String
deriving DecidableEq

/-- Everything observable about one request's run. -/
structure RunResult where
  outcome : Outcome
  commitment : Option String
  builtTxs : List JsObj
  submitCalls : Nat
  txNodeCalls : List String
  counterRead : Option Nat
  verifyCalls : List (Int × String)
  verifyReturned : Option Bool
  chainAfter : ChainState
  response : Option (Nat × String)
deriving DecidableEq

/-- The `/verified-chain` handler (src/backend.js lines 132–143) running
`proof` then `verifyProof` for one request.  When the prover fails,
`proof` rejects, the handler's promise rejects before `res.send`, and no
response is produced; otherwise the handler always answers status 200
with `{"message": helloSetter + " setted hello to " + " " + hello}`.  The
`signature` parameter reaches `proof` but is only logged there. -/
def handleRequest (w : World) (req : ProofRequest) (chain : ChainState) : RunResult :=
  let respMsg := req.helloSetter ++ " setted hello to " ++ " " ++ req.hello
  match w.execOutcome with
  | .failure _ _ =>
    ⟨outcomeOf w, none, [], 0, [], none, [], none, chain, none⟩
  | .success _ _ artifact =>
    let verifyContent := bufferToString artifact
    let message := hashMessage verifyContent
    let relay := relaySetProofRun w chain message
    let ver := verifyProofRun w relay.chain artifact
    ⟨outcomeOf w, some message, relay.builtTxs, relay.submitCalls, relay.nodeCalls,
      ver.counterRead, ver.verifyCalls, ver.verifyReturned, relay.chain,
      some (200, respMsg)⟩

/-- The commitment the pipeline derives from a retrieved proof artifact
(src/backend.js lines 93–97): the file's raw bytes are first decoded to a
string by `.toString()` and then handed to `hashMessage`. -/
def commitmentOfArtifact (artifact : List Nat) : String :=
  hashMessage (bufferToString artifact)

/-! ## Two concurrent requests sharing the fixed artifact path

Both the prover command (`--proof-path 1l_relu.pf` under `cd ezkl`) and
every read in `proof`/`verifyProof` use the single fixed path
`./ezkl/1l_relu.pf`.  Two concurrently handled requests therefore share
one file slot.  Per request the relevant atomic file operations are, in
program order: (pc 0) the external prover writes the request's artifact to
the shared path; (pc 1) `proof` reads the shared path (this is the content
that gets hashed and submitted).  The prover runs as a separate OS
process, so its write is not serialised with the other request's steps by
the JavaScript event loop; any interleaving of the two requests' steps is
possible. -/

/-- Progress of one request in the shared-file model: its program counter
and the bytes its `proof` stage read. -/
structure ReqRun where
  pc : Nat
  readBytes : Option (List Nat)
deriving DecidableEq

/-- One atomic step of a request with artifact `artifact` against the
shared file: step 0 writes the artifact to the shared path, step 1 reads
the shared path into the request's `readBytes`. -/
def stepReq (artifact : List Nat) (file : Option (List Nat)) (s : ReqRun) :
    Option (List Nat) × ReqRun :=
  match s.pc with
  | 0 => (some artifact, ⟨1, s.readBytes⟩)
  | 1 => (file, ⟨2, file⟩)
  | _ => (file, s)

/-- Run two requests with artifacts `a` and `b` under a schedule: `true`
steps request A, `false` steps request B.  Returns the final shared file
content and both requests' states. -/
def runSched (a b : List Nat) (sched : List Bool) :
    Option (List Nat) × ReqRun × ReqRun :=
  sched.foldl
    (fun st turn =>
      if turn then
        let r := stepReq a st.1 st.2.1
        (r.1, r.2, st.2.2)
      else
        let r := stepReq b st.1 st.2.2
        (r.1, st.2.1, r.2))
    (none, ⟨0, none⟩, ⟨0, none⟩)

/-! ## Demo environments used by witnesses and counterexamples -/

/-- A concrete request, as in the URL documented in the source. -/
def reqDemo : ProofRequest := ⟨"hola", "0xSETTER", "0xSIG"⟩

/-- A concrete chain state with five stored commitments (counter 5). -/
def chainDemo : ChainState := ⟨5, ["p0", "p1", "p2", "p3", "p4"]⟩

/-- A concrete artifact (three raw bytes). -/
def artifactDemo : List Nat := [112, 102, 0]

/-- A world in which every collaborator call succeeds. -/
def worldOk : World := ⟨.success "out" "" artifactDemo, 3, 21000, true, true, true, true, true⟩

/-- A world in which the prover exits with code 1 and stderr
`"setup failed"`. -/
def worldProverFail : World := ⟨.failure 1 "setup failed", 3, 21000, true, true, true, true, true⟩

/-- A world in which everything succeeds except `sendTransaction`. -/
def worldSubmitFail : World :=
  ⟨.success "out" "" artifactDemo, 3, 21000, true, false, true, true, true⟩

/-- `w` with the boolean payload of the `verify_proof` call replaced. -/
def withVerifyPayload (w : World) (b : Bool) : World :=
  ⟨w.execOutcome, w.gasPrice, w.gasEstimate, w.estimateOk, w.submitOk,
    w.counterReadOk, w.verifyCallOk, b⟩

/-- `hashMessage` invoked twice on the same message, as the pipeline does
(once in `proof`, once in `verifyProof`). -/
def hashMessageTwice (m : String) : String × String := (hashMessage m, hashMessage m)

/-! ## Claims -/

/-- C1: for every request that completes the pipeline successfully
(reaches `Done`), the commitment passed to `verify_proof` equals the
commitment computed by hashing the retrieved proof artifact, and the
index argument of `verify_proof` equals `counter_after_submit - 1`, where
`counter_after_submit` is the contract's counter value read after the
`create_proof` submission. -/
theorem roundTrip_C1 (w : World) (req : ProofRequest) (chain : ChainState)
    (so se : String) (artifact : List Nat)
    (hexec : w.execOutcome = .success so se artifact)
    (hdone : (handleRequest w req chain).outcome = .done) :
    (handleRequest w req chain).counterRead = some (chain.counter + 1) ∧
    (handleRequest w req chain).commitment = some (commitmentOfArtifact artifact) ∧
    (handleRequest w req chain).verifyCalls =
      [(((chain.counter + 1 : Nat) : Int) - 1, commitmentOfArtifact artifact)] := by
  have hout : outcomeOf w = .done := by
    simpa [handleRequest, hexec] using hdone
  cases he : w.estimateOk <;> cases hs : w.submitOk <;>
    cases hc : w.counterReadOk <;> cases hv : w.verifyCallOk <;>
      simp [outcomeOf, hexec, he, hs, hc, hv] at hout
  simp [handleRequest, hexec, relaySetProofRun, verifyProofRun,
    commitmentOfArtifact, he, hs, hc, hv]

/-- C1 witness: the round-trip property at a concrete all-success run. -/
theorem roundTrip_C1_witness :
    (handleRequest worldOk reqDemo chainDemo).counterRead = some (chainDemo.counter + 1) ∧
    (handleRequest worldOk reqDemo chainDemo).commitment =
      some (commitmentOfArtifact artifactDemo) ∧
    (handleRequest worldOk reqDemo chainDemo).verifyCalls =
      [(((chainDemo.counter + 1 : Nat) : Int) - 1, commitmentOfArtifact artifactDemo)] :=
  roundTrip_C1 worldOk reqDemo chainDemo "out" "" artifactDemo rfl (by decide)

/-- C2: when the external prover exits non-zero, no Chain Client
operation is invoked — no transaction is built, no node call is made, no
submission happens — and the run is `Failed` at the Proving stage with
the prover's stderr. -/
theorem failureContainment_C2 (w : World) (req : ProofRequest) (chain : ChainState)
    (c : Nat) (err : String) (_hc : c ≠ 0)
    (hexec : w.execOutcome = .failure c err) :
    (handleRequest w req chain).submitCalls = 0 ∧
    (handleRequest w req chain).builtTxs = [] ∧
    (handleRequest w req chain).txNodeCalls = [] ∧
    (handleRequest w req chain).verifyCalls = [] ∧
    (handleRequest w req chain).chainAfter = chain ∧
    (handleRequest w req chain).outcome = .failed "Proving" err := by
  simp [handleRequest, hexec, outcomeOf]

/-- C2 witness: the prover exits 1 with stderr "setup failed" and the
containment property holds there. -/
theorem failureContainment_C2_witness :
    (handleRequest worldProverFail reqDemo chainDemo).submitCalls = 0 ∧
    (handleRequest worldProverFail reqDemo chainDemo).builtTxs = [] ∧
    (handleRequest worldProverFail reqDemo chainDemo).txNodeCalls = [] ∧
    (handleRequest worldProverFail reqDemo chainDemo).verifyCalls = [] ∧
    (handleRequest worldProverFail reqDemo chainDemo).chainAfter = chainDemo ∧
    (handleRequest worldProverFail reqDemo chainDemo).outcome =
      .failed "Proving" "setup failed" :=
  failureContainment_C2 worldProverFail reqDemo chainDemo 1 "setup failed"
    (by decide) rfl

/-- C3 fails on the code: with every collaborator healthy except
`sendTransaction`, the run is `Failed` at the Submitting stage, yet the
Verifying stage still runs (`verify_proof` is invoked) and the HTTP
caller receives a 200 success response with the error hidden —
`relaySetProof` swallows the submission error and the handler
unconditionally sends `{"message": ...}`. -/
theorem errorPropagation_C3 :
    (handleRequest worldSubmitFail reqDemo chainDemo).outcome =
      .failed "Submitting" "SubmissionError" ∧
    (handleRequest worldSubmitFail reqDemo chainDemo).verifyCalls ≠ [] ∧
    (handleRequest worldSubmitFail reqDemo chainDemo).response =
      some (200, "0xSETTER setted hello to  hola") := by
  decide

/-- C4 fails on the code: the commitment of the one-byte artifact `0xff`
is not the digest of that raw byte — and is in fact identical to the
commitment of the unrelated artifact `b"proof-bytes"`, whose commitment
also differs from the digest of its own raw bytes.  The pipeline first
re-encodes the artifact textually (`.toString()` then `utf8ToBytes`), and
crypto-js then ignores the resulting `Uint8Array` entirely. -/
theorem rawBytesHashing_C4 :
    commitmentOfArtifact [255] ≠ "0x" ++ sha256Hex [255] ∧
    commitmentOfArtifact [255] = commitmentOfArtifact (asciiBytes "proof-bytes") ∧
    commitmentOfArtifact (asciiBytes "proof-bytes") ≠
      "0x" ++ sha256Hex (asciiBytes "proof-bytes") := by
  decide

/-- C5 fails on the code: every transaction object built for a
`create_proof` submission has exactly the fields `to`, `data`, `gas`,
`gasPrice` — no `nonce` — and `getTransactionCount` is never called on
the node during the run. -/
theorem nonceOmitted_C5 (w : World) (req : ProofRequest) (chain : ChainState) :
    ((handleRequest w req chain).builtTxs.all
      (fun tx => tx.map Prod.fst == ["to", "data", "gas", "gasPrice"])) = true ∧
    ((handleRequest w req chain).txNodeCalls.contains "getTransactionCount") = false := by
  cases hexec : w.execOutcome <;> cases he : w.estimateOk <;> cases hs : w.submitOk <;>
    simp [handleRequest, hexec, relaySetProofRun, txObjFor, he, hs]

/-- C6 fails on the code: with artifacts `[1]` (request A) and `[2]`
(request B) on the shared fixed path, the interleaving "A's prover
writes, B's prover writes, A reads" makes request A read B's artifact —
B's write overwrote A's — while the fully sequential schedule would have
given A its own artifact. -/
theorem artifactIsolation_C6 :
    (runSched [1] [2] [true, false, true]).2.1.readBytes = some [2] ∧
    some [2] ≠ (some [1] : Option (List Nat)) ∧
    (runSched [1] [2] [true, true]).2.1.readBytes = some [1] := by
  decide

/-- C7: the hasher is deterministic — two calls of `hashMessage` on the
same message, as the pipeline performs in its proving and verifying
stages, return the identical commitment string, and the same artifact
always yields the same commitment. -/
theorem hashDeterminism_C7 (m : String) (artifact : List Nat) :
    (hashMessageTwice m).1 = (hashMessageTwice m).2 ∧
    commitmentOfArtifact artifact = commitmentOfArtifact artifact :=
  ⟨rfl, rfl⟩

/-- C8 fails on the code at the empty input: `hashMessage ""` does return
without error a fixed-form commitment (`0x` followed by 64 lowercase hex
digits), but it is not the commitment of the SHA-256 hash of zero bytes —
crypto-js never reads the empty `Uint8Array` and digests a garbage
padding block instead. -/
theorem emptyInputCommitment_C8 :
    ((hashMessage "").toList.take 2 = ['0', 'x'] ∧
      (hashMessage "").toList.length = 66 ∧
      ((hashMessage "").toList.drop 2).all
        (fun ch => "0123456789abcdef".toList.contains ch) = true) ∧
    hashMessage "" ≠ "0x" ++ sha256Hex [] := by
  decide

/-- C9: the boolean payload returned by `verify_proof` has no effect on
the run — for any two runs identical except for that boolean, the
pipeline outcome and the HTTP response are identical. -/
theorem verifyPayloadIgnored_C9 (w : World) (req : ProofRequest) (chain : ChainState)
    (b : Bool) :
    (handleRequest (withVerifyPayload w b) req chain).outcome =
      (handleRequest w req chain).outcome ∧
    (handleRequest (withVerifyPayload w b) req chain).response =
      (handleRequest w req chain).response := by
  cases hexec : w.execOutcome <;>
    simp [handleRequest, withVerifyPayload, outcomeOf, relaySetProofRun,
      verifyProofRun, hexec]

/-- C10: the `signature` query parameter has no observable effect — two
requests identical except in `signature` produce identical runs: the same
commitment, the same built transactions, the same submissions, and the
same HTTP response. -/
theorem signatureIgnored_C10 (w : World) (chain : ChainState)
    (hello hs s1 s2 : String) :
    handleRequest w ⟨hello, hs, s1⟩ chain = handleRequest w ⟨hello, hs, s2⟩ chain := by
  cases hexec : w.execOutcome <;> simp [handleRequest, hexec]

end VerifiedChainBk
